import Mathlib

/-!
Shallow embedding of src/src/modview/core.py (modview pipeline).

Tables (pandas DataFrames) are modelled as a list of column labels plus a
list of rows of rational cells; pandas frames are rectangular, cells are
numeric BED data. A column label is either the positional integer label a
header-less read_csv produces, or a string name after renaming.
Python exceptions are modelled by an error type whose constructors follow
the spec taxonomy; each constructor is produced exactly where the source
raises.
-/

/-- Column label of a pandas DataFrame: integer labels come from
read_csv with no header, string labels from renaming. -/
inductive ColLabel where
  | pos (i : Nat)
  | named (s : String)
deriving DecidableEq, Repr

/-- A pandas DataFrame: column labels and rows of rational cells. -/
structure DataFrame where
  cols : List ColLabel
  rows : List (List Rat)
deriving DecidableEq, Repr

/-- pandas DataFrame.empty: true when any axis has length 0. -/
def DataFrame.empty (df : DataFrame) : Bool :=
  df.rows.isEmpty || df.cols.isEmpty

/-- Whether a string-named column is present (column lookup by name). -/
def DataFrame.hasCol (df : DataFrame) (c : String) : Bool :=
  decide (ColLabel.named c ∈ df.cols)

/-- Value of row r at the column named c (pandas frames are rectangular,
so for a present column the index is always in range; 0 is a formal
default never used on well-formed frames). -/
def rowVal (df : DataFrame) (r : List Rat) (c : String) : Rat :=
  match df.cols.findIdx? (fun x => decide (x = ColLabel.named c)) with
  | some i => r.getD i 0
  | none => 0

/-- Errors, named after the spec taxonomy; each constructor corresponds to
one raise site in core.py. -/
inductive PipelineError where
  | invalidConfig (msg : String)
  | noInputFiles
  | noValidFiles (failed : List String)
  | noSamplesLoaded
  | emptyDataframe (name : String)
  | missingColumn (col : String)
  | noReferencePath
  | referenceFileNotFound (path : String)
  | emptyReference (path : String)
  | referenceLoadError (msg : String)
deriving DecidableEq, Repr

/-- Filterconfig dataclass (fields only; __post_init__ is mkFilterconfig). -/
structure Filterconfig where
  min_coverage : Int := 20
  min_modification_frequency : Rat := 10
deriving DecidableEq, Repr

/-- Filterconfig.__post_init__: validation at construction. -/
def mkFilterconfig (cov : Int) (freq : Rat) : Except PipelineError Filterconfig :=
  if ¬ (0 ≤ freq ∧ freq ≤ 100) then
    .error (.invalidConfig "Modification frequency must be between 0 and 100")
  else if cov < 0 then
    .error (.invalidConfig "Coverage must be non-negative")
  else
    .ok { min_coverage := cov, min_modification_frequency := freq }

/-- FilterStatistics dataclass. Counts are the Python ints computed in
filter_samples: original and filtered are row counts (Nat), removed is
their integer difference, removal_percentage the true-division result. -/
structure FilterStatistics where
  original_count : Nat
  filtered_count : Nat
  removed_count : Int
  removal_percentage : Rat
deriving DecidableEq, Repr

/-- BedSample dataclass. -/
structure BedSample where
  name : String
  condition : Option String := none
  modification : Option String := none
  dataframe : Option DataFrame := none
  filter_stats : Option FilterStatistics := none
deriving DecidableEq, Repr

/-- BedSample.validate: False when no dataframe was ever attached; raises
when an attached dataframe is empty; True otherwise. -/
def BedSample.validate (s : BedSample) : Except PipelineError Bool :=
  match s.dataframe with
  | none => .ok false
  | some df =>
      if df.empty then .error (.emptyDataframe s.name)
      else .ok true

/-- The row predicate of filter_samples:
(df["Score"] >= min_coverage) & (df["Percent_Modified"] >= min_modification_frequency). -/
def keepRow (cfg : Filterconfig) (df : DataFrame) (r : List Rat) : Bool :=
  decide ((cfg.min_coverage : Rat) ≤ rowVal df r "Score") &&
  decide (cfg.min_modification_frequency ≤ rowVal df r "Percent_Modified")

/-- Body of the per-sample loop of filter_samples: skip on validate False,
propagate validate's raise, raise KeyError (MissingColumn) when Score or
Percent_Modified is absent (pandas evaluates df["Score"] first), else
replace the dataframe by the mask-filtered rows and attach statistics. -/
def filterOne (cfg : Filterconfig) (s : BedSample) : Except PipelineError BedSample :=
  match s.validate with
  | .error e => .error e
  | .ok false => .ok s
  | .ok true =>
      match s.dataframe with
      | none => .ok s
      | some df =>
          if ¬ df.hasCol "Score" then .error (.missingColumn "Score")
          else if ¬ df.hasCol "Percent_Modified" then .error (.missingColumn "Percent_Modified")
          else
            let original_count := df.rows.length
            let filtered_df : DataFrame := { df with rows := df.rows.filter (keepRow cfg df) }
            let filtered_count := filtered_df.rows.length
            let removed_count : Int := (original_count : Int) - (filtered_count : Int)
            let removal_percentage : Rat :=
              if 0 < original_count then (removed_count : Rat) / (original_count : Rat) * 100 else 0
            .ok { s with
                  dataframe := some filtered_df,
                  filter_stats := some
                    { original_count := original_count
                      filtered_count := filtered_count
                      removed_count := removed_count
                      removal_percentage := removal_percentage } }

/-- The for-loop of filter_samples over the insertion-ordered sample dict.
Python mutates each BedSample in place, so when a sample raises, the
samples already processed keep their new state while the failing one and
the rest are untouched; the returned pair is (mapping after the loop,
exception if one escaped). -/
def filterRun (cfg : Filterconfig) : List (String × BedSample) → List (String × BedSample) × Option PipelineError
  | [] => ([], none)
  | (n, s) :: rest =>
      match filterOne cfg s with
      | .error e => ((n, s) :: rest, some e)
      | .ok s' =>
          let r := filterRun cfg rest
          ((n, s') :: r.1, r.2)

/-- Pipeline state of ModificationPipeline (__init__). The sample dict is
an insertion-ordered association list. -/
structure Pipeline where
  samples : List (String × BedSample)
  reference : Option DataFrame := none
  config : Filterconfig := {}
deriving DecidableEq, Repr

/-- filter_samples: raises NoSamplesLoaded on an empty dict (before the
config update), stores a provided config, runs the loop. The returned
pipeline reflects the in-place mutation that survives a raise. -/
def filter_samples (p : Pipeline) (cfgOpt : Option Filterconfig) :
    Pipeline × Except PipelineError (List (String × BedSample)) :=
  if p.samples.isEmpty then (p, .error .noSamplesLoaded)
  else
    let cfg := cfgOpt.getD p.config
    let r := filterRun cfg p.samples
    match r.2 with
    | some e => ({ p with samples := r.1, config := cfg }, .error e)
    | none => ({ p with samples := r.1, config := cfg }, .ok r.1)

/-- ModificationPipeline.MODKIT_COLUMNS: the fixed positional schema. -/
def MODKIT_COLUMNS (i : Nat) : Option String :=
  if i = 0 then some "Chromosome"
  else if i = 1 then some "Start"
  else if i = 2 then some "End"
  else if i = 3 then some "Modified_Base_Code"
  else if i = 4 then some "Score"
  else if i = 5 then some "Strand"
  else if i = 6 then some "Start_dup"
  else if i = 7 then some "End_dup"
  else if i = 8 then some "Color"
  else if i = 9 then some "Coverage"
  else if i = 10 then some "Percent_Modified"
  else if i = 11 then some "Nmod"
  else if i = 12 then some "Ncanonical"
  else if i = 13 then some "Nother"
  else if i = 14 then some "Ndelete"
  else if i = 15 then some "Nfail"
  else if i = 16 then some "Ndiff"
  else if i = 17 then some "Nnocall"
  else none

/-- The essential column list of standardize_columns, in its fixed order. -/
def essential_cols : List String :=
  ["Chromosome", "Start", "End", "Score", "Percent_Modified"]

/-- df.rename(columns=rename_map): a positional label i with i < n_cols
and i in MODKIT_COLUMNS becomes the schema name; others are unchanged. -/
def renameLabel (n_cols : Nat) (l : ColLabel) : ColLabel :=
  match l with
  | .pos i =>
      if i < n_cols then
        match MODKIT_COLUMNS i with
        | some s => .named s
        | none => .pos i
      else .pos i
  | .named s => .named s

/-- ModificationPipeline.standardize_columns: rename positional labels by
the schema, then select the available essential columns in fixed order. -/
def standardize_columns (df : DataFrame) : DataFrame :=
  let n := df.cols.length
  let renamed := df.cols.map (renameLabel n)
  let available_essential := essential_cols.filter (fun c => decide (ColLabel.named c ∈ renamed))
  { cols := available_essential.map ColLabel.named
    rows := df.rows.map (fun r => available_essential.map (fun c =>
      match renamed.findIdx? (fun x => decide (x = ColLabel.named c)) with
      | some i => r.getD i 0
      | none => 0)) }

/-- The DataFrame produced by pd.read_csv(path, header=None) on a file
with n columns: column labels are the integers 0..n-1. -/
def rawFrame (t : List (List Rat)) (n : Nat) : DataFrame :=
  { cols := (List.range n).map ColLabel.pos, rows := t }

/-- Python substring test (needle in hay) on character lists. -/
def prefixMatch : List Char → List Char → Bool
  | [], _ => true
  | _ :: _, [] => false
  | a :: as, b :: bs => a == b && prefixMatch as bs

/-- Python substring test: needle occurs contiguously in hay. -/
def substrMatch (needle : List Char) : List Char → Bool
  | [] => prefixMatch needle []
  | c :: t => prefixMatch needle (c :: t) || substrMatch needle t

/-- con.lower() in file_name_lower. -/
def pyIn (needle hay : String) : Bool :=
  substrMatch needle.data hay.data

/-- Python str.lower (ASCII, as in the filenames at hand). -/
def pyLower (s : String) : String :=
  ⟨s.data.map Char.toLower⟩

/-- os.path.basename for POSIX paths: the part after the last slash. -/
def basename (p : String) : String :=
  match p.data.reverse.findIdx? (fun c => c == '/') with
  | none => p
  | some j => ⟨p.data.drop (p.data.length - j)⟩

/-- Index of the last dot of a character list, if any. -/
def lastDotIdx (cs : List Char) : Option Nat :=
  match cs.reverse.findIdx? (fun c => c == '.') with
  | none => none
  | some j => some (cs.length - 1 - j)

/-- os.path.splitext(...)[0]: drop the extension that starts at the last
dot, unless every character before that dot is itself a dot (then the
whole name is kept, as for dotfiles). -/
def splitextRoot (s : String) : String :=
  match lastDotIdx s.data with
  | none => s
  | some i =>
      if (s.data.take i).any (fun c => c != '.') then ⟨s.data.take i⟩ else s

/-- file_name = os.path.splitext(os.path.basename(path))[0]. -/
def sampleName (path : String) : String :=
  splitextRoot (basename path)

/-- The condition / modification detection loops: first candidate, in
caller order, whose lowercase form is a substring of the lowercase file
name; none when no candidate matches or no list was given. -/
def detectFirst (cands : Option (List String)) (file_name_lower : String) : Option String :=
  match cands with
  | none => none
  | some cs => cs.find? (fun c => pyIn (pyLower c) file_name_lower)

/-- The BedSample constructed for one path in load_bed_files, before the
dataframe is read and attached. -/
def mkBedSample (path : String) (conditions modifications : Option (List String)) : BedSample :=
  let file_name := sampleName path
  let file_name_lower := pyLower file_name
  { name := file_name
    condition := detectFirst conditions file_name_lower
    modification := detectFirst modifications file_name_lower
    dataframe := none
    filter_stats := none }

/-- Outcome of the file system and pd.read_csv for one path: the file is
absent, reading raises, or it parses into a frame with n columns. -/
inductive FileContent where
  | raw (t : List (List Rat)) (n : Nat)
  | readFail (msg : String)
deriving DecidableEq, Repr

/-- Python dict assignment d[k] = v on an insertion-ordered association
list: overwrite in place when the key exists, else append. -/
def dictInsert (k : String) (v : BedSample) (l : List (String × BedSample)) :
    List (String × BedSample) :=
  if l.any (fun e => e.1 == k) then l.map (fun e => if e.1 == k then (k, v) else e)
  else l ++ [(k, v)]

/-- One iteration of the load loop: absent file, read failure and empty
frame are recorded as failed; otherwise the standardized frame is
attached and the sample stored under its derived name. -/
def loadStep (fs : String → Option FileContent) (conditions modifications : Option (List String))
    (acc : List (String × BedSample) × List String) (path : String) :
    List (String × BedSample) × List String :=
  match fs path with
  | none => (acc.1, acc.2 ++ [path])
  | some (.readFail _) => (acc.1, acc.2 ++ [path])
  | some (.raw t n) =>
      if t.isEmpty || n == 0 then (acc.1, acc.2 ++ [path])
      else
        let s := mkBedSample path conditions modifications
        let s := { s with dataframe := some (standardize_columns (rawFrame t n)) }
        (dictInsert s.name s acc.1, acc.2)

/-- Whether one path loads successfully (exists, parses, non-empty). -/
def loadsOk (fs : String → Option FileContent) (path : String) : Bool :=
  match fs path with
  | some (.raw t n) => ¬ (t.isEmpty || n == 0)
  | _ => false

/-- ModificationPipeline.load_bed_files over an abstract file system:
NoInputFiles on an empty path list; after the loop, NoValidFiles carrying
the failed paths when no sample loaded, else the sample dict. -/
def load_bed_files (fs : String → Option FileContent) (bedfiles : List String)
    (conditions modifications : Option (List String)) :
    Except PipelineError (List (String × BedSample)) :=
  if bedfiles.isEmpty then .error .noInputFiles
  else
    let r := bedfiles.foldl (loadStep fs conditions modifications) ([], [])
    if r.1.isEmpty then .error (.noValidFiles r.2)
    else .ok r.1

/-- Outcome of pd.read_csv for the reference path: it parses into a frame
or raises with a message. -/
inductive RefContent where
  | parsed (df : DataFrame)
  | parseError (msg : String)
deriving DecidableEq, Repr

/-- The column_map renaming of load_reference. -/
def renameReference (df : DataFrame) : DataFrame :=
  { df with cols := df.cols.map (fun l =>
      match l with
      | .named "Chromosome/scaffold name" => .named "Chromosome"
      | .named "Gene start (bp)" => .named "Start"
      | .named "Gene end (bp)" => .named "End"
      | x => x) }

/-- The try-block body of load_reference: read, raise on an empty frame,
rename. Errors are Python exceptions rendered as messages. -/
def refTryBody (genome_path : String) (r : RefContent) : Except String DataFrame :=
  match r with
  | .parseError msg => .error msg
  | .parsed df =>
      if df.empty then .error ("Reference file is empty: " ++ genome_path)
      else .ok (renameReference df)

/-- ModificationPipeline.load_reference: empty path and missing file are
checked outside the try; every exception raised inside the try — the
empty-reference ValueError included — is caught by the blanket handler
and re-raised wrapped as the generic load error. -/
def load_reference (fs : String → Option RefContent) (genome_path : String) :
    Except PipelineError DataFrame :=
  if genome_path = "" then .error .noReferencePath
  else
    match fs genome_path with
    | none => .error (.referenceFileNotFound genome_path)
    | some r =>
        match refTryBody genome_path r with
        | .error msg => .error (.referenceLoadError ("Error loading reference file: " ++ msg))
        | .ok df => .ok df

instance {ε α : Type} [DecidableEq ε] [DecidableEq α] : DecidableEq (Except ε α) := fun a b =>
  match a, b with
  | .error x, .error y =>
      if h : x = y then isTrue (by rw [h]) else isFalse (fun hc => h (by cases hc; rfl))
  | .ok x, .ok y =>
      if h : x = y then isTrue (by rw [h]) else isFalse (fun hc => h (by cases hc; rfl))
  | .error _, .ok _ => isFalse (fun hc => Except.noConfusion hc)
  | .ok _, .error _ => isFalse (fun hc => Except.noConfusion hc)

/-- The in-place result of one loop iteration when it succeeds. -/
def applyOk (cfg : Filterconfig) (x : String × BedSample) : String × BedSample :=
  (x.1, match filterOne cfg x.2 with | .ok s' => s' | .error _ => x.2)

/-- The sample stored in the mapping for a successfully loaded path:
the metadata sample with the standardized frame attached. -/
def loadedSample (fs : String → Option FileContent)
    (conditions modifications : Option (List String)) (path : String) : BedSample :=
  match fs path with
  | some (.raw t n) =>
      { mkBedSample path conditions modifications with
        dataframe := some (standardize_columns (rawFrame t n)) }
  | _ => mkBedSample path conditions modifications

/-- File system for the load witness: only a.bed exists and parses. -/
def w7fs : String → Option FileContent := fun p =>
  if p = "a.bed" then some (.raw [[1, 2, 3]] 3) else none

/-- File system for the reference counterexample: ref.csv parses into a
zero-row table. -/
def w9fs : String → Option RefContent := fun p =>
  if p = "ref.csv" then some (.parsed ⟨[ColLabel.named "Gene start (bp)"], []⟩) else none

/-- A one-row annotation table with the three renamable headers. -/
def w9good : DataFrame :=
  ⟨[ColLabel.named "Chromosome/scaffold name", ColLabel.named "Gene start (bp)",
    ColLabel.named "Gene end (bp)", ColLabel.named "Gene name"], [[1, 100, 200, 7]]⟩

/-- File system for the reference witness: good.csv parses, bad.csv
raises while parsing. -/
def w9fs2 : String → Option RefContent := fun p =>
  if p = "good.csv" then some (.parsed w9good)
  else if p = "bad.csv" then some (.parseError "ParserError: bad line")
  else none

/-- Schema position of each essential column (0, 1, 2, 4, 10), as the
claim states them. -/
def essentialPos (c : String) : Nat :=
  if c = "Chromosome" then 0
  else if c = "Start" then 1
  else if c = "End" then 2
  else if c = "Score" then 4
  else if c = "Percent_Modified" then 10
  else 18

/-- Concrete one-row table whose row passes the default thresholds. -/
def w4df : DataFrame :=
  ⟨[ColLabel.named "Score", ColLabel.named "Percent_Modified"], [[25, 50]]⟩

/-- Concrete pipeline holding one sample backed by w4df. -/
def w4p : Pipeline :=
  { samples := [("s", { name := "s", dataframe := some w4df })] }

/-- The sample of w4p after one default filter pass. -/
def w4s1 : BedSample :=
  { name := "s", dataframe := some w4df, filter_stats := some ⟨1, 1, 0, 0⟩ }

/-- The pipeline state after one default filter pass over w4p. -/
def w4p1 : Pipeline :=
  { samples := [("s", w4s1)], reference := none, config := {} }

/-! ## Theorems -/

/-- C1: for every sample processed by the filter operation, a row of the
sample's table is kept iff its Score is ≥ min_coverage and its
Percent_Modified is ≥ min_modification_frequency; both comparisons are
inclusive, combined with AND, and the table is replaced by exactly the
rows passing both. -/
theorem C1_filter_rows (cfg : Filterconfig) (s s' : BedSample) (df : DataFrame)
    (hdf : s.dataframe = some df) (h : filterOne cfg s = .ok s') :
    ∃ df', s'.dataframe = some df' ∧ df'.cols = df.cols ∧
      df'.rows = df.rows.filter (keepRow cfg df) ∧
      ∀ r, r ∈ df'.rows ↔ r ∈ df.rows ∧
        ((cfg.min_coverage : Rat) ≤ rowVal df r "Score" ∧
         cfg.min_modification_frequency ≤ rowVal df r "Percent_Modified") := by
  simp only [filterOne, BedSample.validate, hdf] at h
  by_cases he : df.empty = true
  · simp [he] at h
  · simp only [Bool.not_eq_true] at he
    simp only [he, Bool.false_eq_true, if_false] at h
    by_cases h1 : df.hasCol "Score" = true
    · by_cases h2 : df.hasCol "Percent_Modified" = true
      · simp only [h1, h2, not_true, if_false, if_neg] at h
        rw [Except.ok.injEq] at h
        refine ⟨{ df with rows := df.rows.filter (keepRow cfg df) }, ?_, rfl, rfl, ?_⟩
        · rw [← h]
        · intro r
          simp [List.mem_filter, keepRow, Bool.and_eq_true, decide_eq_true_eq]
      · simp only [Bool.not_eq_true] at h2
        simp [h1, h2] at h
    · simp only [Bool.not_eq_true] at h1
      simp [h1] at h

/-- C1 witness: a concrete two-row sample filtered with the default
configuration keeps exactly the row passing both thresholds. -/
theorem C1_filter_rows_witness :
    (({ name := "s",
        dataframe := some ⟨[ColLabel.named "Score", ColLabel.named "Percent_Modified"],
          [[25, 50], [5, 50]]⟩ } : BedSample).dataframe =
      some ⟨[ColLabel.named "Score", ColLabel.named "Percent_Modified"], [[25, 50], [5, 50]]⟩) ∧
    (filterOne {}
      { name := "s",
        dataframe := some ⟨[ColLabel.named "Score", ColLabel.named "Percent_Modified"],
          [[25, 50], [5, 50]]⟩ } =
      .ok
      { name := "s",
        dataframe := some ⟨[ColLabel.named "Score", ColLabel.named "Percent_Modified"], [[25, 50]]⟩,
        filter_stats := some ⟨2, 1, 1, 50⟩ }) ∧
    (∃ df',
      ({ name := "s",
         dataframe := some ⟨[ColLabel.named "Score", ColLabel.named "Percent_Modified"], [[25, 50]]⟩,
         filter_stats := some ⟨2, 1, 1, 50⟩ } : BedSample).dataframe = some df' ∧
      df'.cols = [ColLabel.named "Score", ColLabel.named "Percent_Modified"] ∧
      df'.rows = [[25, 50], [5, 50]].filter
        (keepRow {} ⟨[ColLabel.named "Score", ColLabel.named "Percent_Modified"],
          [[25, 50], [5, 50]]⟩) ∧
      ∀ r, r ∈ df'.rows ↔ r ∈ [[(25 : Rat), 50], [5, 50]] ∧
        ((({} : Filterconfig).min_coverage : Rat) ≤
            rowVal ⟨[ColLabel.named "Score", ColLabel.named "Percent_Modified"],
              [[25, 50], [5, 50]]⟩ r "Score" ∧
         ({} : Filterconfig).min_modification_frequency ≤
            rowVal ⟨[ColLabel.named "Score", ColLabel.named "Percent_Modified"],
              [[25, 50], [5, 50]]⟩ r "Percent_Modified")) := by
  have hf : filterOne {}
      ({ name := "s",
         dataframe := some ⟨[ColLabel.named "Score", ColLabel.named "Percent_Modified"],
           [[25, 50], [5, 50]]⟩ } : BedSample) =
      .ok
      { name := "s",
        dataframe := some ⟨[ColLabel.named "Score", ColLabel.named "Percent_Modified"], [[25, 50]]⟩,
        filter_stats := some ⟨2, 1, 1, 50⟩ } := by
    simp [filterOne, BedSample.validate, DataFrame.empty, DataFrame.hasCol, keepRow, rowVal,
      List.filter, List.findIdx?]
    norm_num
  exact ⟨rfl, hf, C1_filter_rows {} _ _ _ rfl hf⟩

/-- C2: every FilterStatistics produced by a filter invocation satisfies
filtered_count ≤ original_count, removed_count = original − filtered, and
removal_percentage = removed / original × 100 when original_count > 0 and
0 otherwise, so it lies in [0, 100]. -/
theorem C2_filter_statistics (cfg : Filterconfig) (s s' : BedSample) (df : DataFrame)
    (st : FilterStatistics)
    (hdf : s.dataframe = some df) (h : filterOne cfg s = .ok s')
    (hst : s'.filter_stats = some st) :
    st.filtered_count ≤ st.original_count ∧
    st.removed_count = (st.original_count : Int) - (st.filtered_count : Int) ∧
    st.removal_percentage =
      (if 0 < st.original_count then
        (st.removed_count : Rat) / (st.original_count : Rat) * 100 else 0) ∧
    0 ≤ st.removal_percentage ∧ st.removal_percentage ≤ 100 := by
  simp only [filterOne, BedSample.validate, hdf] at h
  by_cases he : df.empty = true
  · simp [he] at h
  · simp only [Bool.not_eq_true] at he
    simp only [he, Bool.false_eq_true, if_false] at h
    by_cases h1 : df.hasCol "Score" = true
    · by_cases h2 : df.hasCol "Percent_Modified" = true
      · simp only [h1, h2, not_true, if_false, if_neg] at h
        rw [Except.ok.injEq] at h
        rw [← h] at hst
        simp only [Option.some.injEq] at hst
        have hfle : (df.rows.filter (keepRow cfg df)).length ≤ df.rows.length :=
          List.length_filter_le _ _
        have hpos : 0 < df.rows.length := by
          have : df.rows.isEmpty = false := by
            simp only [DataFrame.empty, Bool.or_eq_false_iff] at he
            exact he.1
          simp only [List.isEmpty_eq_false_iff_exists_mem] at this
          obtain ⟨x, hx⟩ := this
          exact List.length_pos.mpr (List.ne_nil_of_mem hx)
        rw [← hst]
        refine ⟨hfle, rfl, rfl, ?_, ?_⟩
        · rw [if_pos hpos]
          have hnum : (0 : Rat) ≤
              (((df.rows.length : Int) - ((df.rows.filter (keepRow cfg df)).length : Int) : Int) : Rat) := by
            have : (0 : Int) ≤ (df.rows.length : Int) - ((df.rows.filter (keepRow cfg df)).length : Int) := by
              omega
            exact_mod_cast this
          have hden : (0 : Rat) < (df.rows.length : Rat) := by exact_mod_cast hpos
          have := div_nonneg hnum (le_of_lt hden)
          nlinarith
        · rw [if_pos hpos]
          have hden : (0 : Rat) < (df.rows.length : Rat) := by exact_mod_cast hpos
          have hnumle :
              (((df.rows.length : Int) - ((df.rows.filter (keepRow cfg df)).length : Int) : Int) : Rat) ≤
              (df.rows.length : Rat) := by
            have : (df.rows.length : Int) - ((df.rows.filter (keepRow cfg df)).length : Int) ≤
                (df.rows.length : Int) := by omega
            exact_mod_cast this
          have hdiv : (((df.rows.length : Int) -
              ((df.rows.filter (keepRow cfg df)).length : Int) : Int) : Rat) /
              (df.rows.length : Rat) ≤ 1 := (div_le_one hden).mpr hnumle
          calc (((df.rows.length : Int) -
              ((df.rows.filter (keepRow cfg df)).length : Int) : Int) : Rat) /
              (df.rows.length : Rat) * 100 ≤ 1 * 100 :=
                mul_le_mul_of_nonneg_right hdiv (by norm_num)
            _ = 100 := by norm_num
      · simp only [Bool.not_eq_true] at h2
        simp [h1, h2] at h
    · simp only [Bool.not_eq_true] at h1
      simp [h1] at h

/-- C2 witness: the statistics of a concrete three-row sample. -/
theorem C2_filter_statistics_witness :
    (({ name := "s",
        dataframe := some ⟨[ColLabel.named "Score", ColLabel.named "Percent_Modified"],
          [[25, 50], [5, 50], [25, 5]]⟩ } : BedSample).dataframe =
      some ⟨[ColLabel.named "Score", ColLabel.named "Percent_Modified"],
        [[25, 50], [5, 50], [25, 5]]⟩) ∧
    (filterOne {}
      { name := "s",
        dataframe := some ⟨[ColLabel.named "Score", ColLabel.named "Percent_Modified"],
          [[25, 50], [5, 50], [25, 5]]⟩ } =
      .ok
      { name := "s",
        dataframe := some ⟨[ColLabel.named "Score", ColLabel.named "Percent_Modified"], [[25, 50]]⟩,
        filter_stats := some ⟨3, 1, 2, 200 / 3⟩ }) ∧
    ((3 : Nat) ≤ 3 ∧ ((2 : Int) = (3 : Int) - 1) ∧
      ((200 / 3 : Rat) = if (0 : Nat) < 3 then ((2 : Int) : Rat) / ((3 : Nat) : Rat) * 100 else 0) ∧
      (0 : Rat) ≤ 200 / 3 ∧ (200 / 3 : Rat) ≤ 100) := by
  have hf : filterOne {}
      ({ name := "s",
         dataframe := some ⟨[ColLabel.named "Score", ColLabel.named "Percent_Modified"],
           [[25, 50], [5, 50], [25, 5]]⟩ } : BedSample) =
      .ok
      { name := "s",
        dataframe := some ⟨[ColLabel.named "Score", ColLabel.named "Percent_Modified"], [[25, 50]]⟩,
        filter_stats := some ⟨3, 1, 2, 200 / 3⟩ } := by
    simp [filterOne, BedSample.validate, DataFrame.empty, DataFrame.hasCol, keepRow, rowVal,
      List.filter, List.findIdx?]
    norm_num
  refine ⟨rfl, hf, ?_⟩
  have h := C2_filter_statistics {}
    { name := "s",
      dataframe := some ⟨[ColLabel.named "Score", ColLabel.named "Percent_Modified"],
        [[25, 50], [5, 50], [25, 5]]⟩ }
    { name := "s",
      dataframe := some ⟨[ColLabel.named "Score", ColLabel.named "Percent_Modified"], [[25, 50]]⟩,
      filter_stats := some ⟨3, 1, 2, 200 / 3⟩ }
    ⟨[ColLabel.named "Score", ColLabel.named "Percent_Modified"], [[25, 50], [5, 50], [25, 5]]⟩
    ⟨3, 1, 2, 200 / 3⟩ rfl hf rfl
  exact ⟨le_refl 3, h.2.1, h.2.2.1, h.2.2.2.1, h.2.2.2.2⟩

/-- C8: validation is asymmetric — no attached table yields False without
raising; an attached zero-row table raises; an attached non-empty table
(pandas emptiness: some row and some column) yields True. -/
theorem C8_validate_asymmetry (s : BedSample) :
    (s.dataframe = none → s.validate = .ok false) ∧
    (∀ df, s.dataframe = some df →
      ((df.rows = [] → s.validate = .error (.emptyDataframe s.name)) ∧
       (df.rows ≠ [] → df.cols ≠ [] → s.validate = .ok true))) := by
  refine ⟨fun h => by simp [BedSample.validate, h], fun df hdf => ⟨?_, ?_⟩⟩
  · intro hr
    simp [BedSample.validate, hdf, DataFrame.empty, hr]
  · intro hr hc
    simp [BedSample.validate, hdf, DataFrame.empty, hr, hc]

/-- C8 witness: the three validation outcomes at concrete samples. -/
theorem C8_validate_asymmetry_witness :
    ({ name := "a" } : BedSample).validate = .ok false ∧
    ({ name := "b", dataframe := some ⟨[ColLabel.named "Score"], []⟩ } : BedSample).validate =
      .error (.emptyDataframe "b") ∧
    ({ name := "c", dataframe := some ⟨[ColLabel.named "Score"], [[1]]⟩ } : BedSample).validate =
      .ok true := by
  refine ⟨(C8_validate_asymmetry { name := "a" }).1 rfl, ?_, ?_⟩
  · exact ((C8_validate_asymmetry
      { name := "b", dataframe := some ⟨[ColLabel.named "Score"], []⟩ }).2 _ rfl).1 rfl
  · exact ((C8_validate_asymmetry
      { name := "c", dataframe := some ⟨[ColLabel.named "Score"], [[1]]⟩ }).2 _ rfl).2
      (by simp) (by simp)

/-- C3 counterexample: a pipeline whose single sample's table lacks both
Score and Percent_Modified but has zero rows makes filter_samples fail
with the empty-dataframe error raised by validate, not with the
MissingColumn (KeyError) error the claim requires. -/
theorem C3_counterexample :
    (filter_samples
      { samples := [("s", { name := "s", dataframe := some ⟨[ColLabel.named "Chromosome"], []⟩ })] }
      none).2 = .error (.emptyDataframe "s") ∧
    (filter_samples
      { samples := [("s", { name := "s", dataframe := some ⟨[ColLabel.named "Chromosome"], []⟩ })] }
      none).2 ≠ .error (.missingColumn "Score") ∧
    (filter_samples
      { samples := [("s", { name := "s", dataframe := some ⟨[ColLabel.named "Chromosome"], []⟩ })] }
      none).2 ≠ .error (.missingColumn "Percent_Modified") := by
  refine ⟨?_, ?_, ?_⟩ <;>
    simp [filter_samples, filterRun, filterOne, BedSample.validate, DataFrame.empty]

/-- A filter-loop raise on a sample whose table is non-empty can only be
one of the two KeyErrors for the essential columns. -/
lemma filterOne_error_shape (cfg : Filterconfig) (s : BedSample) (e : PipelineError)
    (hne : ∀ df, s.dataframe = some df → df.empty = false)
    (h : filterOne cfg s = .error e) :
    e = .missingColumn "Score" ∨ e = .missingColumn "Percent_Modified" := by
  cases hdf : s.dataframe with
  | none => simp [filterOne, BedSample.validate, hdf] at h
  | some df =>
      simp only [filterOne, BedSample.validate, hdf, hne df hdf, Bool.false_eq_true,
        if_false] at h
      by_cases h1 : df.hasCol "Score" = true
      · by_cases h2 : df.hasCol "Percent_Modified" = true
        · simp [h1, h2] at h
        · simp only [Bool.not_eq_true] at h2
          simp [h1, h2] at h
          exact Or.inr h.symm
      · simp only [Bool.not_eq_true] at h1
        simp [h1] at h
        exact Or.inl h.symm

/-- A sample with a non-empty table missing an essential column makes the
filter loop raise. -/
lemma filterOne_missing_errors (cfg : Filterconfig) (s : BedSample) (df : DataFrame)
    (hdf : s.dataframe = some df) (hne : df.empty = false)
    (hmiss : df.hasCol "Score" = false ∨ df.hasCol "Percent_Modified" = false) :
    ∃ e, filterOne cfg s = .error e := by
  rcases hmiss with h | h
  · exact ⟨.missingColumn "Score",
      by simp [filterOne, BedSample.validate, hdf, hne, h]⟩
  · by_cases h1 : df.hasCol "Score" = true
    · exact ⟨.missingColumn "Percent_Modified",
        by simp [filterOne, BedSample.validate, hdf, hne, h, h1]⟩
    · simp only [Bool.not_eq_true] at h1
      exact ⟨.missingColumn "Score",
        by simp [filterOne, BedSample.validate, hdf, hne, h1]⟩

/-- When every attached table is non-empty and some sample's table lacks
an essential column, the filter loop ends with a MissingColumn raise. -/
lemma filterRun_missing (cfg : Filterconfig) :
    ∀ l : List (String × BedSample),
    (∀ x ∈ l, ∀ df, x.2.dataframe = some df → df.empty = false) →
    (∃ x ∈ l, ∃ df, x.2.dataframe = some df ∧
       (df.hasCol "Score" = false ∨ df.hasCol "Percent_Modified" = false)) →
    (filterRun cfg l).2 = some (.missingColumn "Score") ∨
    (filterRun cfg l).2 = some (.missingColumn "Percent_Modified") := by
  intro l
  induction l with
  | nil => intro _ hmiss; simp at hmiss
  | cons hd rest ih =>
      intro hne hmiss
      obtain ⟨n, s⟩ := hd
      cases hfo : filterOne cfg s with
      | error e =>
          have he := filterOne_error_shape cfg s e
            (fun df hdf => hne (n, s) (by simp) df hdf) hfo
          rcases he with h | h
          · left; simp [filterRun, hfo, h]
          · right; simp [filterRun, hfo, h]
      | ok s' =>
          have hrest : ∃ x ∈ rest, ∃ df, x.2.dataframe = some df ∧
              (df.hasCol "Score" = false ∨ df.hasCol "Percent_Modified" = false) := by
            rcases hmiss with ⟨x, hx, df, hdf, hm⟩
            rcases List.mem_cons.mp hx with hx' | hx'
            · exfalso
              rw [hx'] at hdf
              obtain ⟨e2, he⟩ := filterOne_missing_errors cfg s df hdf
                (hne (n, s) (by simp) df hdf) hm
              rw [he] at hfo
              cases hfo
            · exact ⟨x, hx', df, hdf, hm⟩
          have := ih (fun x hx => hne x (by simp [hx])) hrest
          rcases this with h | h
          · left; simp [filterRun, hfo, h]
          · right; simp [filterRun, hfo, h]

/-- C3 (amended): if any sample's attached table lacks Score or
Percent_Modified, the filter call fails as a whole — with the
MissingColumn error provided every attached table is non-empty (a
zero-row table triggers validate's empty-dataframe raise first). -/
theorem C3_missing_column (p : Pipeline) (cfgOpt : Option Filterconfig)
    (hne : ∀ x ∈ p.samples, ∀ df, x.2.dataframe = some df → df.empty = false)
    (hmiss : ∃ x ∈ p.samples, ∃ df, x.2.dataframe = some df ∧
       (df.hasCol "Score" = false ∨ df.hasCol "Percent_Modified" = false)) :
    (filter_samples p cfgOpt).2 = .error (.missingColumn "Score") ∨
    (filter_samples p cfgOpt).2 = .error (.missingColumn "Percent_Modified") := by
  have hnonempty : p.samples.isEmpty = false := by
    rcases hmiss with ⟨x, hx, _⟩
    simp [List.isEmpty_eq_false]
    exact List.ne_nil_of_mem hx
  have hrun := filterRun_missing (cfgOpt.getD p.config) p.samples hne hmiss
  rcases hrun with h | h
  · left; simp [filter_samples, hnonempty, h]
  · right; simp [filter_samples, hnonempty, h]

/-- C3 witness: a single one-row sample whose table has only Chromosome
makes the whole filter call fail with MissingColumn. -/
theorem C3_missing_column_witness :
    (∀ x ∈ ({ samples := [("s",
        { name := "s", dataframe := some ⟨[ColLabel.named "Chromosome"], [[1]]⟩ })] } :
        Pipeline).samples,
      ∀ df, x.2.dataframe = some df → df.empty = false) ∧
    (∃ x ∈ ({ samples := [("s",
        { name := "s", dataframe := some ⟨[ColLabel.named "Chromosome"], [[1]]⟩ })] } :
        Pipeline).samples,
      ∃ df, x.2.dataframe = some df ∧
        (df.hasCol "Score" = false ∨ df.hasCol "Percent_Modified" = false)) ∧
    ((filter_samples { samples := [("s",
        { name := "s", dataframe := some ⟨[ColLabel.named "Chromosome"], [[1]]⟩ })] }
      none).2 = .error (.missingColumn "Score") ∨
     (filter_samples { samples := [("s",
        { name := "s", dataframe := some ⟨[ColLabel.named "Chromosome"], [[1]]⟩ })] }
      none).2 = .error (.missingColumn "Percent_Modified")) := by
  have hne : ∀ x ∈ ({ samples := [("s",
      { name := "s", dataframe := some ⟨[ColLabel.named "Chromosome"], [[1]]⟩ })] } :
      Pipeline).samples,
      ∀ df, x.2.dataframe = some df → df.empty = false := by
    intro x hx df hdf
    simp at hx
    subst hx
    simp at hdf
    subst hdf
    decide
  have hmiss : ∃ x ∈ ({ samples := [("s",
      { name := "s", dataframe := some ⟨[ColLabel.named "Chromosome"], [[1]]⟩ })] } :
      Pipeline).samples,
      ∃ df, x.2.dataframe = some df ∧
        (df.hasCol "Score" = false ∨ df.hasCol "Percent_Modified" = false) := by
    refine ⟨("s",
      { name := "s", dataframe := some ⟨[ColLabel.named "Chromosome"], [[1]]⟩ }),
      by simp, ⟨[ColLabel.named "Chromosome"], [[1]]⟩, rfl, Or.inl (by decide)⟩
  exact ⟨hne, hmiss, C3_missing_column _ none hne hmiss⟩

/-- When the loop raises at a sample, every sample before it keeps its
mutated state and the failing one and the rest are untouched. -/
lemma filterRun_partial (cfg : Filterconfig) :
    ∀ (pre : List (String × BedSample)) (n : String) (s : BedSample)
      (rest : List (String × BedSample)) (e : PipelineError),
    (∀ x ∈ pre, (filterOne cfg x.2).isOk = true) →
    filterOne cfg s = .error e →
    filterRun cfg (pre ++ (n, s) :: rest) = (pre.map (applyOk cfg) ++ (n, s) :: rest, some e) := by
  intro pre
  induction pre with
  | nil =>
      intro n s rest e _ herr
      simp [filterRun, herr]
  | cons hd pre' ih =>
      intro n s rest e hok herr
      obtain ⟨m, x⟩ := hd
      have hx : (filterOne cfg x).isOk = true := hok (m, x) (by simp)
      cases hfo : filterOne cfg x with
      | error e' => rw [hfo] at hx; simp [Except.isOk, Except.toBool] at hx
      | ok x' =>
          have hrec := ih n s rest e (fun y hy => hok y (by simp [hy])) herr
          have hstep : filterRun cfg ((m, x) :: (pre' ++ (n, s) :: rest)) =
              ((m, x') :: (filterRun cfg (pre' ++ (n, s) :: rest)).1,
               (filterRun cfg (pre' ++ (n, s) :: rest)).2) := by
            simp [filterRun, hfo]
          rw [List.cons_append, hstep, hrec]
          simp [applyOk, hfo]

/-- C10: the filter operation is not atomic — when it raises partway, the
samples iterated before the failing one keep their replaced tables and
attached statistics in the pipeline's mapping, and the failing one and
those after it are unchanged. -/
theorem C10_partial_mutation (p : Pipeline) (cfgOpt : Option Filterconfig)
    (pre : List (String × BedSample)) (n : String) (s : BedSample)
    (rest : List (String × BedSample)) (e : PipelineError)
    (hsplit : p.samples = pre ++ (n, s) :: rest)
    (hok : ∀ x ∈ pre, (filterOne (cfgOpt.getD p.config) x.2).isOk = true)
    (herr : filterOne (cfgOpt.getD p.config) s = .error e) :
    (filter_samples p cfgOpt).2 = .error e ∧
    (filter_samples p cfgOpt).1.samples =
      pre.map (applyOk (cfgOpt.getD p.config)) ++ (n, s) :: rest := by
  have hnonempty : p.samples.isEmpty = false := by
    rw [hsplit]
    cases pre <;> simp
  have hrun := filterRun_partial (cfgOpt.getD p.config) pre n s rest e hok herr
  rw [← hsplit] at hrun
  constructor
  · simp [filter_samples, hnonempty, hrun]
  · simp [filter_samples, hnonempty, hrun]

/-- C10 witness: a two-sample pipeline where the second sample's table
lacks Score — the first sample is already mutated when the call fails. -/
theorem C10_partial_mutation_witness :
    (({ samples := [
        ("a", { name := "a", dataframe := some ⟨[ColLabel.named "Score",
          ColLabel.named "Percent_Modified"], [[25, 50], [5, 50]]⟩ }),
        ("b", { name := "b", dataframe := some ⟨[ColLabel.named "Chromosome"], [[1]]⟩ })] } :
      Pipeline).samples = [
        ("a", { name := "a", dataframe := some ⟨[ColLabel.named "Score",
          ColLabel.named "Percent_Modified"], [[25, 50], [5, 50]]⟩ })] ++
        ("b", { name := "b", dataframe := some ⟨[ColLabel.named "Chromosome"], [[1]]⟩ }) :: []) ∧
    (∀ x ∈ [("a", ({ name := "a", dataframe := some ⟨[ColLabel.named "Score",
          ColLabel.named "Percent_Modified"], [[25, 50], [5, 50]]⟩ } : BedSample))],
      (filterOne ((none : Option Filterconfig).getD
        ({ samples := [
          ("a", { name := "a", dataframe := some ⟨[ColLabel.named "Score",
            ColLabel.named "Percent_Modified"], [[25, 50], [5, 50]]⟩ }),
          ("b", { name := "b", dataframe := some ⟨[ColLabel.named "Chromosome"], [[1]]⟩ })] } :
          Pipeline).config) x.2).isOk = true) ∧
    (filterOne ((none : Option Filterconfig).getD
        ({ samples := [
          ("a", { name := "a", dataframe := some ⟨[ColLabel.named "Score",
            ColLabel.named "Percent_Modified"], [[25, 50], [5, 50]]⟩ }),
          ("b", { name := "b", dataframe := some ⟨[ColLabel.named "Chromosome"], [[1]]⟩ })] } :
          Pipeline).config)
      { name := "b", dataframe := some ⟨[ColLabel.named "Chromosome"], [[1]]⟩ } =
      .error (.missingColumn "Score")) ∧
    ((filter_samples { samples := [
        ("a", { name := "a", dataframe := some ⟨[ColLabel.named "Score",
          ColLabel.named "Percent_Modified"], [[25, 50], [5, 50]]⟩ }),
        ("b", { name := "b", dataframe := some ⟨[ColLabel.named "Chromosome"], [[1]]⟩ })] }
      none).2 = .error (.missingColumn "Score") ∧
     (filter_samples { samples := [
        ("a", { name := "a", dataframe := some ⟨[ColLabel.named "Score",
          ColLabel.named "Percent_Modified"], [[25, 50], [5, 50]]⟩ }),
        ("b", { name := "b", dataframe := some ⟨[ColLabel.named "Chromosome"], [[1]]⟩ })] }
      none).1.samples =
      [("a", ({ name := "a", dataframe := some ⟨[ColLabel.named "Score",
          ColLabel.named "Percent_Modified"], [[25, 50], [5, 50]]⟩ } : BedSample))].map
        (applyOk ((none : Option Filterconfig).getD
          ({ samples := [
            ("a", { name := "a", dataframe := some ⟨[ColLabel.named "Score",
              ColLabel.named "Percent_Modified"], [[25, 50], [5, 50]]⟩ }),
            ("b", { name := "b", dataframe := some ⟨[ColLabel.named "Chromosome"], [[1]]⟩ })] } :
            Pipeline).config)) ++
      ("b", ({ name := "b", dataframe := some ⟨[ColLabel.named "Chromosome"], [[1]]⟩ } :
        BedSample)) :: []) := by
  have hok : ∀ x ∈ [("a", ({ name := "a", dataframe := some ⟨[ColLabel.named "Score",
        ColLabel.named "Percent_Modified"], [[25, 50], [5, 50]]⟩ } : BedSample))],
      (filterOne ({} : Filterconfig) x.2).isOk = true := by
    intro x hx
    simp at hx
    subst hx
    decide
  have herr : filterOne ({} : Filterconfig)
      ({ name := "b", dataframe := some ⟨[ColLabel.named "Chromosome"], [[1]]⟩ } : BedSample) =
      .error (.missingColumn "Score") := by decide
  exact ⟨rfl, hok, herr, C10_partial_mutation _ none _ "b" _ [] _ rfl hok herr⟩

/-- C4 counterexample: a sample whose only row fails the thresholds is
filtered to zero rows by the first call, so the second call with the same
configuration does not succeed — validate raises on the now-empty table. -/
theorem C4_counterexample :
    (filter_samples
      { samples := [("s", { name := "s", dataframe := some ⟨[ColLabel.named "Score",
        ColLabel.named "Percent_Modified"], [[0, 0]]⟩ })] } none).2.isOk = true ∧
    (filter_samples
      (filter_samples
        { samples := [("s", { name := "s", dataframe := some ⟨[ColLabel.named "Score",
          ColLabel.named "Percent_Modified"], [[0, 0]]⟩ })] } none).1 none).2 =
      .error (.emptyDataframe "s") := by decide

/-- The loop output has as many samples as its input. -/
lemma filterRun_length (cfg : Filterconfig) : ∀ l, (filterRun cfg l).1.length = l.length := by
  intro l
  induction l with
  | nil => simp [filterRun]
  | cons hd rest ih =>
      obtain ⟨n, s⟩ := hd
      cases hfo : filterOne cfg s with
      | error e => simp [filterRun, hfo]
      | ok s' => simp [filterRun, hfo, ih]

/-- Closed form of a successful loop iteration. -/
lemma filterOne_ok_eq (cfg : Filterconfig) (u : BedSample) (d : DataFrame)
    (hdf : u.dataframe = some d) (he : d.empty = false)
    (h1 : d.hasCol "Score" = true) (h2 : d.hasCol "Percent_Modified" = true) :
    filterOne cfg u = .ok
      { u with
        dataframe := some { d with rows := d.rows.filter (keepRow cfg d) },
        filter_stats := some
          { original_count := d.rows.length
            filtered_count := (d.rows.filter (keepRow cfg d)).length
            removed_count := (d.rows.length : Int) - ((d.rows.filter (keepRow cfg d)).length : Int)
            removal_percentage := if 0 < d.rows.length then
              (((d.rows.length : Int) - ((d.rows.filter (keepRow cfg d)).length : Int) : Int) : Rat) /
                (d.rows.length : Rat) * 100 else 0 } } := by
  simp [filterOne, BedSample.validate, hdf, he, h1, h2]

/-- Filtering a sample that a successful filter pass produced succeeds
again and leaves its table unchanged, provided that table is not empty. -/
lemma filterOne_ok_again (cfg : Filterconfig) (s s' : BedSample)
    (h : filterOne cfg s = .ok s')
    (hne : ∀ df, s'.dataframe = some df → df.rows ≠ []) :
    ∃ s'', filterOne cfg s' = .ok s'' ∧ s''.dataframe = s'.dataframe := by
  cases hdf : s.dataframe with
  | none =>
      have hs : s = s' := by
        simpa [filterOne, BedSample.validate, hdf] using h
      subst hs
      exact ⟨s, by simp [filterOne, BedSample.validate, hdf], rfl⟩
  | some df =>
      simp only [filterOne, BedSample.validate, hdf] at h
      by_cases he : df.empty = true
      · simp [he] at h
      · simp only [Bool.not_eq_true] at he
        simp only [he, Bool.false_eq_true, if_false] at h
        by_cases h1 : df.hasCol "Score" = true
        · by_cases h2 : df.hasCol "Percent_Modified" = true
          · simp only [h1, h2, not_true, if_false, if_neg] at h
            rw [Except.ok.injEq] at h
            subst h
            have hcols : df.cols.isEmpty = false := by
              simp only [DataFrame.empty, Bool.or_eq_false_iff] at he
              exact he.2
            have hrows : (df.rows.filter (keepRow cfg df)) ≠ [] := by
              exact hne { df with rows := df.rows.filter (keepRow cfg df) } rfl
            have he' : ({ df with rows := df.rows.filter (keepRow cfg df) } : DataFrame).empty = false := by
              simp only [DataFrame.empty, Bool.or_eq_false_iff]
              exact ⟨by simpa [List.isEmpty_eq_false] using hrows, hcols⟩
            have hfix : (df.rows.filter (keepRow cfg df)).filter (keepRow cfg df) =
                df.rows.filter (keepRow cfg df) :=
              List.filter_eq_self.mpr (fun r hr => (List.mem_filter.mp hr).2)
            refine ⟨_, filterOne_ok_eq cfg _ { df with rows := df.rows.filter (keepRow cfg df) }
              rfl he' h1 h2, ?_⟩
            show some ({ df with rows := (df.rows.filter (keepRow cfg df)).filter (keepRow cfg df) }
              : DataFrame) = some { df with rows := df.rows.filter (keepRow cfg df) }
            rw [hfix]
          · simp only [Bool.not_eq_true] at h2
            simp [h1, h2] at h
        · simp only [Bool.not_eq_true] at h1
          simp [h1] at h

/-- Re-running the loop on the output of a successful run changes no
sample's table, provided no table was filtered down to zero rows. -/
lemma filterRun_ok_again (cfg : Filterconfig) :
    ∀ l l1, filterRun cfg l = (l1, none) →
    (∀ x ∈ l1, ∀ df, x.2.dataframe = some df → df.rows ≠ []) →
    (filterRun cfg l1).2 = none ∧
    (filterRun cfg l1).1.map (fun x => (x.1, x.2.dataframe)) =
      l1.map (fun x => (x.1, x.2.dataframe)) := by
  intro l
  induction l with
  | nil =>
      intro l1 h hne
      simp only [filterRun, Prod.mk.injEq] at h
      rw [← h.1]
      simp [filterRun]
  | cons hd rest ih =>
      intro l1 h hne
      obtain ⟨n, s⟩ := hd
      cases hfo : filterOne cfg s with
      | error e =>
          simp only [filterRun, hfo, Prod.mk.injEq] at h
          cases h.2
      | ok s' =>
          simp only [filterRun, hfo, Prod.mk.injEq] at h
          have hr2 : (filterRun cfg rest).2 = none := h.2
          have hl1 : (n, s') :: (filterRun cfg rest).1 = l1 := h.1
          subst hl1
          have hrest : filterRun cfg rest = ((filterRun cfg rest).1, none) := by
            rw [← hr2]
          have ihr := ih (filterRun cfg rest).1 hrest
            (fun x hx => hne x (by simp [hx]))
          obtain ⟨s'', hs'', hdf''⟩ := filterOne_ok_again cfg s s' hfo
            (fun df hdf => hne (n, s') (by simp) df hdf)
          constructor
          · simp [filterRun, hs'', ihr.1]
          · simp only [filterRun, hs'', List.map_cons]
            rw [ihr.2, hdf'']

/-- C4 (amended): running filter_samples a second time with the same
configuration on the output of a successful run succeeds and leaves every
sample's table equal to its input, provided no sample was filtered down
to an empty table (such a sample makes the second run raise instead). -/
theorem C4_filter_idempotent (p p1 : Pipeline) (cfg : Filterconfig)
    (m1 : List (String × BedSample))
    (h1 : filter_samples p (some cfg) = (p1, .ok m1))
    (hne : ∀ x ∈ p1.samples, ∀ df, x.2.dataframe = some df → df.rows ≠ []) :
    ∃ p2 m2, filter_samples p1 (some cfg) = (p2, .ok m2) ∧
      p2.samples = m2 ∧
      p2.samples.map (fun x => (x.1, x.2.dataframe)) =
        p1.samples.map (fun x => (x.1, x.2.dataframe)) := by
  by_cases hemp : p.samples.isEmpty = true
  · simp [filter_samples, hemp] at h1
  · simp only [Bool.not_eq_true] at hemp
    simp only [filter_samples, hemp, Bool.false_eq_true, if_false, Option.getD] at h1
    cases hr2 : (filterRun cfg p.samples).2 with
    | some e => rw [hr2] at h1; simp at h1
    | none =>
        rw [hr2] at h1
        simp only [Prod.mk.injEq, Except.ok.injEq] at h1
        have hp1 : p1.samples = (filterRun cfg p.samples).1 := by
          rw [← h1.1]
        have hrun : filterRun cfg p.samples = (p1.samples, none) := by
          rw [hp1, ← hr2]
        have hlen : p1.samples.length = p.samples.length := by
          rw [hp1]; exact filterRun_length cfg p.samples
        have hemp1 : p1.samples.isEmpty = false := by
          simp only [List.isEmpty_eq_false] at hemp ⊢
          intro hcon
          apply hemp
          have : p.samples.length = 0 := by rw [← hlen, hcon]; rfl
          exact List.length_eq_zero.mp this
        obtain ⟨hr2', hmap⟩ := filterRun_ok_again cfg p.samples p1.samples hrun hne
        refine ⟨{ p1 with samples := (filterRun cfg p1.samples).1, config := cfg },
          (filterRun cfg p1.samples).1, ?_, rfl, ?_⟩
        · simp only [filter_samples, hemp1, Bool.false_eq_true, if_false, Option.getD]
          rw [hr2']
        · exact hmap

/-- C4 witness: a one-sample pipeline whose row survives filtering is a
fixed point of a second run with the same configuration. -/
theorem C4_filter_idempotent_witness :
    (filter_samples w4p (some {}) = (w4p1, .ok [("s", w4s1)])) ∧
    (∀ x ∈ w4p1.samples, ∀ df, x.2.dataframe = some df → df.rows ≠ []) ∧
    (∃ p2 m2, filter_samples w4p1 (some {}) = (p2, .ok m2) ∧
      p2.samples = m2 ∧
      p2.samples.map (fun x => (x.1, x.2.dataframe)) =
        w4p1.samples.map (fun x => (x.1, x.2.dataframe))) := by
  have h1 : filter_samples w4p (some {}) = (w4p1, .ok [("s", w4s1)]) := by
    simp [w4p, w4p1, w4s1, w4df, filter_samples, filterRun, filterOne, BedSample.validate,
      DataFrame.empty, DataFrame.hasCol, keepRow, rowVal, List.filter, List.findIdx?]
    norm_num
  have hne : ∀ x ∈ w4p1.samples, ∀ df, x.2.dataframe = some df → df.rows ≠ [] := by
    intro x hx df hdf
    simp [w4p1] at hx
    subst hx
    simp [w4s1, w4df] at hdf
    subst hdf
    decide
  exact ⟨h1, hne, C4_filter_idempotent _ _ {} _ h1 hne⟩

/-- Positions 18 and beyond are outside the schema. -/
lemma modkit_none (i : Nat) (h : 18 ≤ i) : MODKIT_COLUMNS i = none := by
  unfold MODKIT_COLUMNS
  repeat rw [if_neg (by omega)]

/-- A schema name determines its position, given the bounded check. -/
lemma modkit_uniq (c : String) (p : Nat)
    (hb : ∀ j, j < 18 → MODKIT_COLUMNS j = some c → j = p) :
    ∀ i, MODKIT_COLUMNS i = some c → i = p := by
  intro i h
  by_cases h18 : i < 18
  · exact hb i h18 h
  · rw [modkit_none i (by omega)] at h
    cases h

/-- A schema name appears among the renamed labels of an n-column raw
frame exactly when its position is below n. -/
lemma named_mem_renamed (n : Nat) (c : String) (p : Nat)
    (hp : MODKIT_COLUMNS p = some c)
    (huniq : ∀ i, MODKIT_COLUMNS i = some c → i = p) :
    (ColLabel.named c ∈ (List.range n).map (fun i => renameLabel n (ColLabel.pos i))) ↔ p < n := by
  constructor
  · intro hm
    obtain ⟨i, hi, heq⟩ := List.mem_map.mp hm
    rw [List.mem_range] at hi
    simp only [renameLabel] at heq
    rw [if_pos hi] at heq
    cases hmk : MODKIT_COLUMNS i with
    | none => rw [hmk] at heq; cases heq
    | some s =>
        rw [hmk] at heq
        have hs : s = c := by cases heq; rfl
        subst hs
        have := huniq i hmk
        omega
  · intro hpn
    refine List.mem_map.mpr ⟨p, List.mem_range.mpr hpn, ?_⟩
    simp [renameLabel, hpn, hp]

/-- C5: standardization of an n-column raw frame keeps exactly the
essential columns whose schema position is below n, in the fixed order
Chromosome, Start, End, Score, Percent_Modified, preserving the row
count and never failing. -/
theorem C5_standardize_columns (t : List (List Rat)) (n : Nat) :
    (standardize_columns (rawFrame t n)).cols =
      (essential_cols.filter (fun c => decide (essentialPos c < n))).map ColLabel.named ∧
    (standardize_columns (rawFrame t n)).rows.length = t.length := by
  constructor
  · simp only [standardize_columns, rawFrame, List.length_map, List.length_range,
      List.map_map]
    congr 1
    apply List.filter_congr
    intro c hc
    rw [decide_eq_decide]
    fin_cases hc
    · simpa [essentialPos, Function.comp] using
        named_mem_renamed n "Chromosome" 0 (by decide) (modkit_uniq _ _ (by decide))
    · simpa [essentialPos, Function.comp] using
        named_mem_renamed n "Start" 1 (by decide) (modkit_uniq _ _ (by decide))
    · simpa [essentialPos, Function.comp] using
        named_mem_renamed n "End" 2 (by decide) (modkit_uniq _ _ (by decide))
    · simpa [essentialPos, Function.comp] using
        named_mem_renamed n "Score" 4 (by decide) (modkit_uniq _ _ (by decide))
    · simpa [essentialPos, Function.comp] using
        named_mem_renamed n "Percent_Modified" 10 (by decide) (modkit_uniq _ _ (by decide))
  · simp [standardize_columns, rawFrame]

/-- C6: condition and modification are the first candidate, in
caller-supplied order, whose lowercase form is a substring of the
lowercased base name without extension; they stay None when no candidate
matches or no candidate list is supplied, even if a later candidate
matches. -/
theorem C6_first_match (path : String) (cs ms : List String) :
    ((mkBedSample path (some cs) (some ms)).condition = none ↔
      ∀ c ∈ cs, pyIn (pyLower c) (pyLower (sampleName path)) = false) ∧
    (∀ c, (mkBedSample path (some cs) (some ms)).condition = some c ↔
      (pyIn (pyLower c) (pyLower (sampleName path)) = true ∧
       ∃ pre post, cs = pre ++ c :: post ∧
         ∀ c' ∈ pre, pyIn (pyLower c') (pyLower (sampleName path)) = false)) ∧
    ((mkBedSample path none (some ms)).condition = none) ∧
    ((mkBedSample path (some cs) (some ms)).modification = none ↔
      ∀ m ∈ ms, pyIn (pyLower m) (pyLower (sampleName path)) = false) ∧
    (∀ m, (mkBedSample path (some cs) (some ms)).modification = some m ↔
      (pyIn (pyLower m) (pyLower (sampleName path)) = true ∧
       ∃ pre post, ms = pre ++ m :: post ∧
         ∀ m' ∈ pre, pyIn (pyLower m') (pyLower (sampleName path)) = false)) ∧
    ((mkBedSample path (some cs) none).modification = none) := by
  refine ⟨?_, ?_, rfl, ?_, ?_, rfl⟩
  · simp [mkBedSample, detectFirst, List.find?_eq_none]
  · intro c
    simp [mkBedSample, detectFirst, List.find?_eq_some, Bool.not_eq_true]
  · simp [mkBedSample, detectFirst, List.find?_eq_none]
  · intro m
    simp [mkBedSample, detectFirst, List.find?_eq_some, Bool.not_eq_true]

/-- C6 witness: the spec scenario — loading sampleA_ctrl_5mC.bed with
conditions ctrl, treated and modifications 5mC, 6mA yields condition ctrl
and modification 5mC. -/
theorem C6_first_match_witness :
    (mkBedSample "sampleA_ctrl_5mC.bed" (some ["ctrl", "treated"])
      (some ["5mC", "6mA"])).name = "sampleA_ctrl_5mC" ∧
    (mkBedSample "sampleA_ctrl_5mC.bed" (some ["ctrl", "treated"])
      (some ["5mC", "6mA"])).condition = some "ctrl" ∧
    (mkBedSample "sampleA_ctrl_5mC.bed" (some ["ctrl", "treated"])
      (some ["5mC", "6mA"])).modification = some "5mC" := by
  have h := C6_first_match "sampleA_ctrl_5mC.bed" ["ctrl", "treated"] ["5mC", "6mA"]
  refine ⟨by decide, ?_, ?_⟩
  · exact (h.2.1 "ctrl").mpr ⟨by decide, [], ["treated"], rfl, by simp⟩
  · exact (h.2.2.2.2.1 "5mC").mpr ⟨by decide, [], ["6mA"], rfl, by simp⟩

/-- One load-loop iteration in closed form: a successful path stores its
sample under its derived name, a failing one is appended to the failed
list. -/
lemma loadStep_eq (fs : String → Option FileContent) (c m : Option (List String))
    (acc : List (String × BedSample) × List String) (p : String) :
    loadStep fs c m acc p =
      if loadsOk fs p = true
      then (dictInsert (sampleName p) (loadedSample fs c m p) acc.1, acc.2)
      else (acc.1, acc.2 ++ [p]) := by
  unfold loadStep loadsOk loadedSample
  cases hfs : fs p with
  | none => simp
  | some content =>
      cases content with
      | readFail msg => simp
      | raw t n =>
          by_cases hemp : (t.isEmpty || n == 0) = true
          · simp [hemp]
          · simp [hemp, mkBedSample]

/-- dict assignment never empties the dict. -/
lemma dictInsert_ne_nil (k : String) (v : BedSample) (l : List (String × BedSample)) :
    dictInsert k v l ≠ [] := by
  unfold dictInsert
  split
  · next h =>
      cases l with
      | nil => simp at h
      | cons a t => simp
  · simp

/-- Entries after a dict assignment are the new binding or old entries. -/
lemma dictInsert_mem (k : String) (v : BedSample) (l : List (String × BedSample)) :
    ∀ x ∈ dictInsert k v l, x = (k, v) ∨ x ∈ l := by
  intro x hx
  unfold dictInsert at hx
  split at hx
  · obtain ⟨e, he, hev⟩ := List.mem_map.mp hx
    by_cases hek : (e.1 == k) = true
    · rw [if_pos hek] at hev
      left
      exact hev.symm
    · rw [if_neg hek] at hev
      right
      rw [← hev]
      exact he
  · rcases List.mem_append.mp hx with h | h
    · right; exact h
    · left; simpa using h

/-- The assigned key is a key of the dict afterwards. -/
lemma dictInsert_mem_keys (k : String) (v : BedSample) (l : List (String × BedSample)) :
    k ∈ (dictInsert k v l).map Prod.fst := by
  unfold dictInsert
  split
  · next h =>
      obtain ⟨e, he, hek⟩ := List.any_eq_true.mp h
      refine List.mem_map.mpr ⟨(k, v), ?_, rfl⟩
      refine List.mem_map.mpr ⟨e, he, ?_⟩
      rw [if_pos hek]
  · simp

/-- dict assignment keeps every existing key. -/
lemma dictInsert_keys_mono (k : String) (v : BedSample) (l : List (String × BedSample))
    (q : String) (h : q ∈ l.map Prod.fst) : q ∈ (dictInsert k v l).map Prod.fst := by
  unfold dictInsert
  split
  · obtain ⟨e, he, hfst⟩ := List.mem_map.mp h
    by_cases hek : (e.1 == k) = true
    · have hk : e.1 = k := by simpa using hek
      refine List.mem_map.mpr ⟨(k, v), List.mem_map.mpr ⟨e, he, by rw [if_pos hek]⟩, ?_⟩
      rw [← hfst, hk]
    · exact List.mem_map.mpr ⟨e, List.mem_map.mpr ⟨e, he, by rw [if_neg hek]⟩, hfst⟩
  · simp only [List.map_append]
    exact List.mem_append_left _ h

/-- The failed list after the load loop: the prior failures followed by
the failing paths in input order. -/
lemma load_foldl_snd (fs : String → Option FileContent) (c m : Option (List String)) :
    ∀ (paths : List String) (acc : List (String × BedSample) × List String),
    (paths.foldl (loadStep fs c m) acc).2 =
      acc.2 ++ paths.filter (fun p => !loadsOk fs p) := by
  intro paths
  induction paths with
  | nil => intro acc; simp
  | cons p rest ih =>
      intro acc
      simp only [List.foldl_cons]
      rw [ih]
      by_cases h : loadsOk fs p = true
      · simp [loadStep_eq, h, List.filter_cons]
      · simp only [Bool.not_eq_true] at h
        simp [loadStep_eq, h, List.filter_cons]

/-- The sample dict after the load loop is empty exactly when it started
empty and every path failed. -/
lemma load_foldl_fst_nil_iff (fs : String → Option FileContent) (c m : Option (List String)) :
    ∀ (paths : List String) (acc : List (String × BedSample) × List String),
    ((paths.foldl (loadStep fs c m) acc).1 = [] ↔
      acc.1 = [] ∧ ∀ p ∈ paths, loadsOk fs p = false) := by
  intro paths
  induction paths with
  | nil => intro acc; simp
  | cons p rest ih =>
      intro acc
      simp only [List.foldl_cons, loadStep_eq]
      by_cases h : loadsOk fs p = true
      · rw [if_pos h, ih]
        constructor
        · rintro ⟨hnil, -⟩
          exact absurd hnil (dictInsert_ne_nil _ _ _)
        · rintro ⟨-, hall⟩
          rw [hall p (List.mem_cons_self p rest)] at h
          cases h
      · rw [if_neg h, ih]
        simp only [Bool.not_eq_true] at h
        constructor
        · rintro ⟨h1, h2⟩
          refine ⟨h1, ?_⟩
          intro q hq
          rcases List.mem_cons.mp hq with rfl | hq'
          · exact h
          · exact h2 q hq'
        · rintro ⟨h1, h2⟩
          exact ⟨h1, fun q hq => h2 q (List.mem_cons_of_mem _ hq)⟩

/-- Keys present before the load loop survive it. -/
lemma load_foldl_keys_mono (fs : String → Option FileContent) (c m : Option (List String)) :
    ∀ (paths : List String) (acc : List (String × BedSample) × List String) (k : String),
    k ∈ acc.1.map Prod.fst →
    k ∈ ((paths.foldl (loadStep fs c m) acc).1).map Prod.fst := by
  intro paths
  induction paths with
  | nil => intro acc k h; exact h
  | cons p rest ih =>
      intro acc k h
      simp only [List.foldl_cons, loadStep_eq]
      by_cases hp : loadsOk fs p = true
      · rw [if_pos hp]
        exact ih _ k (dictInsert_keys_mono _ _ _ _ h)
      · rw [if_neg hp]
        exact ih _ k h

/-- Every successfully loading path contributes its derived name as a key
of the final dict. -/
lemma load_foldl_keys_in (fs : String → Option FileContent) (c m : Option (List String)) :
    ∀ (paths : List String) (acc : List (String × BedSample) × List String),
    ∀ p ∈ paths, loadsOk fs p = true →
    sampleName p ∈ ((paths.foldl (loadStep fs c m) acc).1).map Prod.fst := by
  intro paths
  induction paths with
  | nil => intro acc p hp; cases hp
  | cons q rest ih =>
      intro acc p hp hok
      simp only [List.foldl_cons, loadStep_eq]
      rcases List.mem_cons.mp hp with rfl | hp'
      · rw [if_pos hok]
        exact load_foldl_keys_mono fs c m rest _ _ (dictInsert_mem_keys _ _ _)
      · by_cases hq : loadsOk fs q = true
        · rw [if_pos hq]
          exact ih _ p hp' hok
        · rw [if_neg hq]
          exact ih _ p hp' hok

/-- Every entry of the final dict is an initial entry or the stored
sample of a successfully loading path. -/
lemma load_foldl_mem (fs : String → Option FileContent) (c m : Option (List String)) :
    ∀ (paths : List String) (acc : List (String × BedSample) × List String),
    ∀ x ∈ (paths.foldl (loadStep fs c m) acc).1,
    x ∈ acc.1 ∨ ∃ p ∈ paths, loadsOk fs p = true ∧
      x = (sampleName p, loadedSample fs c m p) := by
  intro paths
  induction paths with
  | nil => intro acc x hx; left; exact hx
  | cons q rest ih =>
      intro acc x hx
      simp only [List.foldl_cons, loadStep_eq] at hx
      by_cases hq : loadsOk fs q = true
      · rw [if_pos hq] at hx
        rcases ih _ x hx with hin | ⟨p, hp, hok, hxp⟩
        · rcases dictInsert_mem _ _ _ x hin with hxq | hold
          · right
            exact ⟨q, List.mem_cons_self q rest, hq, hxq⟩
          · left; exact hold
        · right
          exact ⟨p, List.mem_cons_of_mem _ hp, hok, hxp⟩
      · rw [if_neg hq] at hx
        rcases ih _ x hx with hin | ⟨p, hp, hok, hxp⟩
        · left; exact hin
        · right
          exact ⟨p, List.mem_cons_of_mem _ hp, hok, hxp⟩

/-- C7: the load operation fails with NoInputFiles on an empty path list;
on a non-empty list it fails with NoValidFiles carrying the failed paths
exactly when no path loads, and otherwise returns the non-empty mapping
of the successfully loaded subset (failed paths do not fail the call). -/
theorem C7_load_outcomes (fs : String → Option FileContent)
    (conditions modifications : Option (List String)) :
    (load_bed_files fs [] conditions modifications = .error .noInputFiles) ∧
    (∀ bedfiles : List String, bedfiles ≠ [] →
      ((load_bed_files fs bedfiles conditions modifications =
          .error (.noValidFiles (bedfiles.filter (fun p => !loadsOk fs p)))) ↔
        ∀ p ∈ bedfiles, loadsOk fs p = false) ∧
      ((∃ p ∈ bedfiles, loadsOk fs p = true) →
        ∃ mp, load_bed_files fs bedfiles conditions modifications = .ok mp ∧ mp ≠ [] ∧
          (∀ x ∈ mp, ∃ p ∈ bedfiles, loadsOk fs p = true ∧
            x = (sampleName p, loadedSample fs conditions modifications p)) ∧
          (∀ p ∈ bedfiles, loadsOk fs p = true → sampleName p ∈ mp.map Prod.fst))) := by
  constructor
  · rfl
  · intro bedfiles hbne
    have hbne' : bedfiles.isEmpty = false := by
      simpa [List.isEmpty_eq_false] using hbne
    constructor
    · constructor
      · intro herr
        by_cases hnil : (bedfiles.foldl (loadStep fs conditions modifications) ([], [])).1 = []
        · exact ((load_foldl_fst_nil_iff fs conditions modifications bedfiles ([], [])).mp
            hnil).2
        · exfalso
          simp only [load_bed_files, hbne', Bool.false_eq_true, if_false] at herr
          rw [if_neg (by simpa [List.isEmpty_eq_false] using hnil)] at herr
          cases herr
      · intro hall
        have hnil : (bedfiles.foldl (loadStep fs conditions modifications) ([], [])).1 = [] :=
          (load_foldl_fst_nil_iff fs conditions modifications bedfiles ([], [])).mpr
            ⟨rfl, hall⟩
        simp only [load_bed_files, hbne', Bool.false_eq_true, if_false]
        rw [if_pos (by simpa using hnil)]
        rw [load_foldl_snd fs conditions modifications bedfiles ([], [])]
        rfl
    · rintro ⟨p, hp, hok⟩
      have hnotnil : (bedfiles.foldl (loadStep fs conditions modifications) ([], [])).1 ≠ [] := by
        intro hnil
        have := ((load_foldl_fst_nil_iff fs conditions modifications bedfiles ([], [])).mp
          hnil).2 p hp
        rw [this] at hok
        cases hok
      refine ⟨(bedfiles.foldl (loadStep fs conditions modifications) ([], [])).1, ?_, hnotnil,
        ?_, ?_⟩
      · simp only [load_bed_files, hbne', Bool.false_eq_true, if_false]
        rw [if_neg (by simpa [List.isEmpty_eq_false] using hnotnil)]
      · intro x hx
        rcases load_foldl_mem fs conditions modifications bedfiles ([], []) x hx with
          hin | hgood
        · cases hin
        · exact hgood
      · intro q hq hqok
        exact load_foldl_keys_in fs conditions modifications bedfiles ([], []) q hq hqok

/-- C7 witness: loading a.bed (exists) and b.bed (missing) succeeds with
the single sample a and records b.bed as failed only; loading only
missing paths fails with NoValidFiles listing them; loading nothing
fails with NoInputFiles. -/
theorem C7_load_outcomes_witness :
    (load_bed_files w7fs [] none none = .error .noInputFiles) ∧
    (["a.bed", "b.bed"] ≠ ([] : List String)) ∧
    (∃ p ∈ ["a.bed", "b.bed"], loadsOk w7fs p = true) ∧
    (∃ mp, load_bed_files w7fs ["a.bed", "b.bed"] none none = .ok mp ∧ mp ≠ [] ∧
      (∀ x ∈ mp, ∃ p ∈ ["a.bed", "b.bed"], loadsOk w7fs p = true ∧
        x = (sampleName p, loadedSample w7fs none none p)) ∧
      (∀ p ∈ ["a.bed", "b.bed"], loadsOk w7fs p = true → sampleName p ∈ mp.map Prod.fst)) ∧
    (load_bed_files w7fs ["b.bed"] none none = .error (.noValidFiles ["b.bed"])) := by
  have h := C7_load_outcomes w7fs none none
  refine ⟨h.1, by simp, ⟨"a.bed", by simp, by decide⟩, ?_, ?_⟩
  · exact (h.2 ["a.bed", "b.bed"] (by simp)).2 ⟨"a.bed", by simp, by decide⟩
  · have h2 := (h.2 ["b.bed"] (by simp)).1.mpr (by intro p hp; simp at hp; subst hp; decide)
    have hfil : (["b.bed"].filter (fun p => !loadsOk w7fs p)) = ["b.bed"] := by decide
    rw [hfil] at h2
    exact h2

/-- C9 counterexample: a reference file that parses into a zero-row table
does not surface the EmptyReference error — the ValueError raised inside
the try-block is caught by the blanket handler and re-raised wrapped as
the generic reference load error. -/
theorem C9_counterexample :
    load_reference w9fs "ref.csv" =
      .error (.referenceLoadError
        "Error loading reference file: Reference file is empty: ref.csv") ∧
    load_reference w9fs "ref.csv" ≠ .error (.emptyReference "ref.csv") := by
  constructor <;> decide

/-- C9 (amended): the reference loader fails with NoReferencePath on an
empty path and ReferenceFileNotFound on a missing file; a zero-row parsed
table and any other parse failure both reach the caller as
ReferenceLoadError wrapping the causing message (the zero-row case wraps
the empty-reference message rather than surfacing a distinct
EmptyReference); a non-empty parse succeeds with the renamed table. -/
theorem C9_reference_errors (fs : String → Option RefContent) (path : String) :
    (path = "" → load_reference fs path = .error .noReferencePath) ∧
    (path ≠ "" → fs path = none →
      load_reference fs path = .error (.referenceFileNotFound path)) ∧
    (∀ df, path ≠ "" → fs path = some (.parsed df) → df.empty = true →
      load_reference fs path = .error (.referenceLoadError
        ("Error loading reference file: " ++ ("Reference file is empty: " ++ path)))) ∧
    (∀ msg, path ≠ "" → fs path = some (.parseError msg) →
      load_reference fs path = .error (.referenceLoadError
        ("Error loading reference file: " ++ msg))) ∧
    (∀ df, path ≠ "" → fs path = some (.parsed df) → df.empty = false →
      load_reference fs path = .ok (renameReference df)) := by
  refine ⟨?_, ?_, ?_, ?_, ?_⟩
  · intro h
    simp [load_reference, h]
  · intro h hfs
    simp [load_reference, h, hfs]
  · intro df h hfs hemp
    simp [load_reference, refTryBody, h, hfs, hemp]
  · intro msg h hfs
    simp [load_reference, refTryBody, h, hfs]
  · intro df h hfs hemp
    simp [load_reference, refTryBody, h, hfs, hemp]

/-- C9 witness: the four observable outcomes at concrete inputs, and the
spec scenario that the renamed table has a Start column. -/
theorem C9_reference_errors_witness :
    (load_reference w9fs2 "" = .error .noReferencePath) ∧
    (load_reference w9fs2 "nope.csv" = .error (.referenceFileNotFound "nope.csv")) ∧
    (load_reference w9fs "ref.csv" = .error (.referenceLoadError
      ("Error loading reference file: " ++ ("Reference file is empty: " ++ "ref.csv")))) ∧
    (load_reference w9fs2 "bad.csv" = .error (.referenceLoadError
      ("Error loading reference file: " ++ "ParserError: bad line"))) ∧
    (load_reference w9fs2 "good.csv" = .ok (renameReference w9good)) ∧
    (renameReference w9good).cols = [ColLabel.named "Chromosome", ColLabel.named "Start",
      ColLabel.named "End", ColLabel.named "Gene name"] := by
  refine ⟨(C9_reference_errors w9fs2 "").1 rfl,
    (C9_reference_errors w9fs2 "nope.csv").2.1 (by decide) (by decide),
    (C9_reference_errors w9fs "ref.csv").2.2.1 ⟨[ColLabel.named "Gene start (bp)"], []⟩
      (by decide) (by decide) (by decide),
    (C9_reference_errors w9fs2 "bad.csv").2.2.2.1 "ParserError: bad line" (by decide) (by decide),
    (C9_reference_errors w9fs2 "good.csv").2.2.2.2 w9good (by decide) (by decide) (by decide),
    by decide⟩
